import Mathlib

/-!
Verification of the iTAG Homey app (`src/app.js`, `src/drivers/itag/driver.js`)
against its natural-language specification.

The JavaScript is shallowly embedded: each `this.*` field of the device
object becomes a field of an explicit state record, each method becomes a
state-passing function, and each fallible collaborator call (BLE transport,
capability store, flow cards) is driven by an explicit environment of
success/failure flags.  Timers are modelled by lists of outstanding
scheduled callbacks (`setTimeout` appends, `clearTimeout` erases by handle).
-/

/-! ## Alarm/phase state machine (app.js lines 55-232)

Events restricted to connect-success and disconnect, as in the claim about
`alarm_disconnected`.  A connect-success is the code reaching lines 67-71
(link established, `alarm_disconnected` written `false`); a disconnect is
the `once('disconnect')` handler body, lines 145-151.  The alarm write in
the disconnect handler is best-effort — `setCapabilityValue(..., true)`
with its rejection swallowed by `.catch` (lines 149-151) — so the event
carries a flag saying whether the hub accepted that write; when it did
not, the stored capability value is unchanged.  The write on the
connect-success path (line 71) needs no such flag: it is unguarded, so an
attempt whose alarm-clear write is rejected aborts into the catch block
and never becomes a connect-success event. -/

namespace AlarmModel

inductive Phase where
  | Disconnected
  | Connecting
  | Connected
deriving DecidableEq, Repr

inductive Ev where
  | connectSuccess
  | disconnectEvt (capOk : Bool)
deriving DecidableEq, Repr

structure St where
  phase : Phase
  alarm_disconnected : Bool
deriving DecidableEq, Repr

/-- One event applied to the session state.
`connectSuccess`: app.js line 67 (`advertisement.connect()` resolves) and
line 71 (`setCapabilityValue('alarm_disconnected', false)`, unguarded).
`disconnectEvt capOk`: app.js lines 145-151 — the guarded
`setCapabilityValue('alarm_disconnected', true)` takes effect only when the
hub accepts it (`capOk`); the link is gone either way (line 163
`this.peripheral = null`). -/
def step : St → Ev → St
  | _, .connectSuccess => { phase := .Connected, alarm_disconnected := false }
  | s, .disconnectEvt capOk =>
      { phase := .Disconnected
        alarm_disconnected := if capOk then true else s.alarm_disconnected }

def run (s : St) (es : List Ev) : St :=
  es.foldl step s

/-- Whether the hub accepted the alarm capability write carried out by the
event (always true for a connect-success: a rejected write there aborts
the attempt instead). -/
def capOkEv : Ev → Bool
  | .connectSuccess => true
  | .disconnectEvt capOk => capOk

/-- The claimed invariant: the alarm is raised exactly while no live link is held. -/
def inv (s : St) : Prop :=
  s.alarm_disconnected = true ↔ s.phase ≠ .Connected

instance (s : St) : Decidable (inv s) := by
  unfold inv
  infer_instance

end AlarmModel

/-! ## Reconnected-event model (app.js lines 73-80, 154, 228)

Alphabet: `success` is the code reaching lines 73-80 (link just established,
trigger fired iff `wasDisconnected`, flag cleared); `fail` is a connect
attempt aborting into the catch block (line 228 sets `wasDisconnected`);
`drop` is the disconnect handler (line 154 sets `wasDisconnected`). -/

namespace ReconModel

inductive Ev where
  | success
  | fail
  | drop
deriving DecidableEq, Repr

structure St where
  wasDisconnected : Bool
  fires : Nat
deriving DecidableEq, Repr

/-- One event applied to the session state.  On `success` the
`device_reconnected` trigger fires (counted in `fires`) iff
`wasDisconnected` held, and the flag is cleared right after (lines 74-80).
`fail` and `drop` set the flag (lines 228 and 154). -/
def step (s : St) : Ev → St
  | .success =>
      { wasDisconnected := false
        fires := s.fires + (if s.wasDisconnected then 1 else 0) }
  | .fail => { s with wasDisconnected := true }
  | .drop => { s with wasDisconnected := true }

def run (s : St) (es : List Ev) : St :=
  es.foldl step s

/-- Fresh session: `this.wasDisconnected` is undefined, hence falsy; no
trigger has fired. -/
def init : St := ⟨false, 0⟩

def isSuccess : Ev → Bool
  | .success => true
  | .fail => false
  | .drop => false

/-- Specification-side count of maximal disconnected runs immediately
followed by a successful connect: one per adjacent pair (non-success event,
success event) in the trace, since every maximal nonempty run of
disconnect/failure events that is followed by a success ends exactly at
such a pair. -/
def reconnectCount : List Ev → Nat
  | [] => 0
  | [_] => 0
  | a :: b :: t =>
      (if !isSuccess a && isSuccess b then 1 else 0) + reconnectCount (b :: t)

/-- Whether the head of the trace is a success event. -/
def headSuccess : List Ev → Bool
  | [] => false
  | e :: _ => isSuccess e

end ReconModel

/-! ## Environment-driven connect attempt (app.js lines 55-233, 296-302)

`connectToDevice` is embedded step by step.  The environment fixes, for one
attempt, whether each collaborator call resolves or rejects; the state holds
the `this.*` fields touched by the attempt plus observation counters
(`findCalls`, registration counts, trigger fires) and the list of
outstanding reconnect timers (`setTimeout` handles never cleared by
`reconnect`, which only overwrites the `reconnectTimeout` field). -/

namespace ConnModel

/-- The error that aborts a connect attempt into the catch block. -/
inductive ConnErr where
  | notFound
  | connectFailed
  | capWriteFailed
  | discoverFailed
  | serviceNotFound
  | nullAlertService
  | charNotFound
  | writeFailed
  | actionCardFailed
deriving DecidableEq, Repr

/-- Resolution/rejection of each collaborator call made by one connect
attempt (and by its catch block). -/
structure Env where
  findOk : Bool            -- line 61  this.homey.ble.find(uuid)
  connectOk : Bool         -- line 67  advertisement.connect()
  capConnOk : Bool         -- line 71  setCapabilityValue('alarm_disconnected', false) (unguarded)
  triggerOk : Bool         -- line 76  deviceReconnectedTrigger.trigger (guarded by .catch)
  discoverOk : Bool        -- line 89  peripheral.discoverServices()
  ffe0Found : Bool         -- line 93  getService FFE0 returns non-null
  alertSvcFound : Bool     -- line 97  getService 1802 returns non-null (no null check in code)
  linkLostFound : Bool     -- line 107 getCharacteristic FFE2 non-null
  buttonFound : Bool       -- line 108 getCharacteristic FFE1 non-null
  alertFound : Bool        -- line 109 getCharacteristic 2A06 non-null
  writeOk : Bool           -- line 138 linkLostChar.write(0x00)
  actionCardsOk : Bool     -- lines 187-188 getActionCard (unguarded)
  capCatchOk : Bool        -- line 223 setCapabilityValue('alarm_disconnected', true) (guarded by .catch)
deriving DecidableEq, Repr

/-- The `this.*` fields of the device object touched by connection handling,
plus observation counters. -/
structure DeviceState where
  alarm_disconnected : Bool      -- stored capability value
  wasDisconnected : Bool         -- this.wasDisconnected
  peripheral : Bool              -- this.peripheral is non-null
  alertChar : Bool               -- this.alertChar is set
  handlerArmed : Bool            -- a once('disconnect') handler is armed on the live link
  ringListenerRegistered : Bool  -- this.ringListenerRegistered
  flowActionsRegistered : Bool   -- this.flowActionsRegistered
  ringRegs : Nat                 -- observation: registerCapabilityListener('ring') calls
  startRegs : Nat                -- observation: start_ringing registerRunListener calls
  stopRegs : Nat                 -- observation: stop_ringing registerRunListener calls
  reconnectedFires : Nat         -- observation: device_reconnected trigger fires
  findCalls : Nat                -- observation: ble.find calls (one per attempt, no sync retry)
  pendingReconnects : List Nat   -- delays (ms) of outstanding reconnect setTimeout timers
deriving DecidableEq, Repr

/-- Fresh device: falsy fields, no timers, no calls made yet. -/
def initDevice : DeviceState :=
  { alarm_disconnected := false, wasDisconnected := false, peripheral := false
    alertChar := false, handlerArmed := false, ringListenerRegistered := false
    flowActionsRegistered := false, ringRegs := 0, startRegs := 0, stopRegs := 0
    reconnectedFires := 0, findCalls := 0, pendingReconnects := [] }

/-- app.js lines 296-302: `reconnect` schedules one `setTimeout` for 7000 ms
whose callback awaits `connectToDevice` once; it neither checks nor clears
any already-pending timer, only overwrites the `reconnectTimeout` field. -/
def reconnect (s : DeviceState) : DeviceState :=
  { s with pendingReconnects := s.pendingReconnects ++ [7000] }

/-- One step of the try body chained onto a previous outcome: a JavaScript
`await` inside `try` — an already-thrown error skips the rest of the body. -/
def tstep (r : DeviceState × Option ConnErr)
    (f : DeviceState → DeviceState × Option ConnErr) :
    DeviceState × Option ConnErr :=
  match r with
  | (s, none) => f s
  | (s, some e) => (s, some e)

/-- line 61: `this.homey.ble.find(uuid)`; rejects when the tag is not
advertising.  One call per attempt, counted. -/
def findStep (env : Env) (s : DeviceState) : DeviceState × Option ConnErr :=
  if env.findOk then ({ s with findCalls := s.findCalls + 1 }, none)
  else ({ s with findCalls := s.findCalls + 1 }, some .notFound)

/-- line 64 `updateRSSI` is internally try/catch-guarded (lines 285-294)
and never throws; line 67: `advertisement.connect()`. -/
def connectStep (env : Env) (s : DeviceState) : DeviceState × Option ConnErr :=
  if env.connectOk then (s, none) else (s, some .connectFailed)

/-- line 71: `setCapabilityValue('alarm_disconnected', false)`, unguarded:
its rejection aborts the attempt into the catch block. -/
def clearAlarmStep (env : Env) (s : DeviceState) : DeviceState × Option ConnErr :=
  if env.capConnOk then ({ s with alarm_disconnected := false }, none)
  else (s, some .capWriteFailed)

/-- lines 73-80: fire `device_reconnected` iff `wasDisconnected`, then clear
the flag; trigger rejection is swallowed by `.catch` (line 76), so it does
not alter control flow or state. -/
def reconnectedTriggerStep (s : DeviceState) : DeviceState × Option ConnErr :=
  if s.wasDisconnected then
    ({ s with reconnectedFires := s.reconnectedFires + 1, wasDisconnected := false }, none)
  else (s, none)

/-- line 84 `__registerPeripheral`; line 89: `peripheral.discoverServices()`. -/
def discoverStep (env : Env) (s : DeviceState) : DeviceState × Option ConnErr :=
  if env.discoverOk then (s, none) else (s, some .discoverFailed)

/-- lines 93-96: `getService` FFE0, with the explicit null check that throws
`FFE0 service not found`. -/
def getServiceStep (env : Env) (s : DeviceState) : DeviceState × Option ConnErr :=
  if env.ffe0Found then (s, none) else (s, some .serviceNotFound)

/-- line 97: `getService` 1802 with no null check; lines 107-109: the three
`getCharacteristic` calls — line 109 throws a TypeError when `alertService`
is null; lines 111-119: the explicit null checks; line 132:
`this.alertChar = alertChar`. -/
def getCharacteristicsStep (env : Env) (s : DeviceState) : DeviceState × Option ConnErr :=
  if !env.alertSvcFound then (s, some .nullAlertService)
  else if !env.linkLostFound then (s, some .charNotFound)
  else if !env.buttonFound then (s, some .charNotFound)
  else if !env.alertFound then (s, some .charNotFound)
  else ({ s with alertChar := true }, none)

/-- line 138: `linkLostChar.write(Buffer.from([0x00]))`. -/
def writeLinkLostStep (env : Env) (s : DeviceState) : DeviceState × Option ConnErr :=
  if env.writeOk then (s, none) else (s, some .writeFailed)

/-- line 142: `this.peripheral = peripheral`; line 145: the one-shot
disconnect handler is armed on the live link. -/
def armDisconnectStep (s : DeviceState) : DeviceState × Option ConnErr :=
  ({ s with peripheral := true, handlerArmed := true }, none)

/-- lines 167-185: register the ring capability listener, only when the
`ringListenerRegistered` flag is not yet set. -/
def ringListenerStep (s : DeviceState) : DeviceState × Option ConnErr :=
  if !s.ringListenerRegistered then
    ({ s with ringRegs := s.ringRegs + 1, ringListenerRegistered := true }, none)
  else (s, none)

/-- lines 187-188: `getActionCard` for both flow actions, called on every
pass and unguarded. -/
def actionCardsStep (env : Env) (s : DeviceState) : DeviceState × Option ConnErr :=
  if env.actionCardsOk then (s, none) else (s, some .actionCardFailed)

/-- lines 190-215: register the two flow run listeners, only when the
`flowActionsRegistered` flag is not yet set. -/
def flowListenersStep (s : DeviceState) : DeviceState × Option ConnErr :=
  if !s.flowActionsRegistered then
    ({ s with startRegs := s.startRegs + 1, stopRegs := s.stopRegs + 1
              flowActionsRegistered := true }, none)
  else (s, none)

/-- Sequencing of awaited steps inside the `try` block: run each step on
the state left by the previous one, stopping at the first thrown error. -/
def chain (gs : List (DeviceState → DeviceState × Option ConnErr))
    (s : DeviceState) : DeviceState × Option ConnErr :=
  match gs with
  | [] => (s, none)
  | g :: rest => tstep (g s) (chain rest)

/-- The steps of the try body after the initial `ble.find`, in source
order (lines 64-215). -/
def restSteps (env : Env) : List (DeviceState → DeviceState × Option ConnErr) :=
  [connectStep env, clearAlarmStep env, reconnectedTriggerStep,
   discoverStep env, getServiceStep env, getCharacteristicsStep env,
   writeLinkLostStep env, armDisconnectStep, ringListenerStep,
   actionCardsStep env, flowListenersStep]

/-- The body of the `try` block of `connectToDevice` (lines 56-215): the
steps in source order, each aborting the rest on error.  Returns the state
as mutated so far and the aborting error, if any. -/
def tryBody (env : Env) (s : DeviceState) : DeviceState × Option ConnErr :=
  tstep (findStep env s) (chain (restSteps env))

/-- The catch block, lines 217-232: log, best-effort alarm write (line 223,
its rejection swallowed by .catch), set `wasDisconnected`, schedule a
reconnect.  Nothing in it can throw out of `connectToDevice`. -/
def catchBlock (env : Env) (s : DeviceState) : DeviceState :=
  let s := if env.capCatchOk then { s with alarm_disconnected := true } else s
  let s := { s with wasDisconnected := true }
  reconnect s

/-- Method `connectToDevice` (lines 55-233): run the try body; an aborting error is
consumed by the catch block.  The second component is an error escaping the
method, i.e. a rejection of the returned promise. -/
def connectToDevice (env : Env) (s : DeviceState) : DeviceState × Option ConnErr :=
  match tryBody env s with
  | (s, none) => (s, none)
  | (s, some _) => (catchBlock env s, none)

/-- All unguarded collaborator calls of one attempt resolve. -/
def attemptSucceeds (env : Env) : Bool :=
  env.findOk && env.connectOk && env.capConnOk && env.discoverOk &&
  env.ffe0Found && env.alertSvcFound && env.linkLostFound && env.buttonFound &&
  env.alertFound && env.writeOk && env.actionCardsOk

/-- The `once('disconnect')` handler body, lines 145-165: set the alarm
(write guarded by .catch, line 149), set `wasDisconnected`, fire the
disconnected trigger (guarded), unregister and null the peripheral, call
`reconnect`.  The handler is one-shot and exists only while armed. -/
def disconnectHandler (capOk : Bool) (s : DeviceState) : DeviceState :=
  if s.handlerArmed then
    let s := if capOk then { s with alarm_disconnected := true } else s
    let s := { s with wasDisconnected := true, peripheral := false, handlerArmed := false }
    reconnect s
  else s

/-- Session history for listener-registration claims: a connect attempt
under some environment, or a physical link drop. -/
inductive SessEv where
  | attempt (env : Env)
  | drop (capOk : Bool)

def sessStep (s : DeviceState) : SessEv → DeviceState
  | .attempt env => (connectToDevice env s).1
  | .drop capOk => disconnectHandler capOk s

def sessRun (s : DeviceState) (es : List SessEv) : DeviceState :=
  es.foldl sessStep s

/-- An environment in which every collaborator call resolves. -/
def envAllOk : Env :=
  { findOk := true, connectOk := true, capConnOk := true, triggerOk := true
    discoverOk := true, ffe0Found := true, alertSvcFound := true
    linkLostFound := true, buttonFound := true, alertFound := true
    writeOk := true, actionCardsOk := true, capCatchOk := true }

/-- An attempt that fails only at `getActionCard` (lines 187-188), after the
disconnect handler is already armed on the live link. -/
def envActionCardFail : Env :=
  { envAllOk with actionCardsOk := false }

/-- An attempt that fails because the proprietary FFE0 service is absent. -/
def envServiceMissing : Env :=
  { envAllOk with ffe0Found := false }

end ConnModel

/-! ## Ring actuation (app.js lines 234-253)

`ringDevice` writes 0x02 (start) or 0x00 (stop) to the alert
characteristic; both writes sit in their own try/catch, so the method is a
total function into an outcome record: it assigns no `this.*` field and
re-throws nothing. -/

namespace RingModel

structure RingEnv where
  alertCharPresent : Bool  -- this.alertChar is set (a TypeError on a null handle is thrown inside the try)
  writeOk : Bool           -- alertChar.write resolves
deriving DecidableEq, Repr

/-- The call `this.alertChar.write(Buffer.from([b]))`: rejects when the handle is
missing (TypeError) or the transport refuses the write. -/
def writeAlert (env : RingEnv) (b : Nat) : Except Unit Nat :=
  if env.alertCharPresent && env.writeOk then .ok b else .error ()

structure RingOutcome where
  bytesWritten : List Nat  -- bytes that reached the alert characteristic
  errorLogged : Bool       -- this.error was called from a catch arm
deriving DecidableEq, Repr

/-- app.js lines 234-253.  `value === true` writes 0x02, otherwise 0x00;
each branch catches and logs its own failure. -/
def ringDevice (value : Bool) (env : RingEnv) : RingOutcome :=
  if value = true then
    match writeAlert env 2 with
    | .ok b => { bytesWritten := [b], errorLogged := false }
    | .error _ => { bytesWritten := [], errorLogged := true }
  else
    match writeAlert env 0 with
    | .ok b => { bytesWritten := [b], errorLogged := false }
    | .error _ => { bytesWritten := [], errorLogged := true }

/-- Method `ringDevice` with the device state threaded through: the method body
assigns no field of `this`, so the state passes through untouched. -/
def ringDeviceOn (value : Bool) (env : RingEnv) (s : ConnModel.DeviceState) :
    ConnModel.DeviceState × RingOutcome :=
  (s, ringDevice value env)

end RingModel

/-! ## Timer bookkeeping for ring/reconnect/RSSI (app.js lines 167-215, 255-283, 296-302, 316-340)

Timers carry numeric handles; `setTimeout`/`setInterval` allocate a fresh
handle and append `(handle, delay)` to the pending list of their kind;
`clearTimeout h` erases the timer with handle `h`.  The state keeps both
`this._ringTimeout` (assigned by the ring paths) and `this.ringTimeout`
(read by `onDeleted`, assigned nowhere in app.js). -/

namespace TimerModel

structure SessSt where
  nextId : Nat
  ringTimers : List (Nat × Nat)       -- outstanding ring auto-stop timers (handle, delay ms)
  reconnectTimers : List (Nat × Nat)  -- outstanding reconnect timers
  rssiIntervals : List (Nat × Nat)    -- running RSSI poll intervals
  _ringTimeout : Option Nat           -- this._ringTimeout, written by the ring paths
  ringTimeout : Option Nat            -- the field `this.ringTimeout`: read at line 328, never assigned
  reconnectTimeout : Option Nat       -- this.reconnectTimeout
  rssiInterval : Option Nat           -- this.rssiInterval
  ring : Bool                         -- stored 'ring' capability value
  peripheral : Bool                   -- this.peripheral is non-null
deriving DecidableEq, Repr

def initSess : SessSt :=
  { nextId := 0, ringTimers := [], reconnectTimers := [], rssiIntervals := []
    _ringTimeout := none, ringTimeout := none, reconnectTimeout := none
    rssiInterval := none, ring := false, peripheral := false }

/-- Erase the timer with the given handle from a pending list
(`clearTimeout`). -/
def clearTimer (h : Nat) (ts : List (Nat × Nat)) : List (Nat × Nat) :=
  ts.filter (fun t => t.1 ≠ h)

/-- Arm a fresh ring auto-stop timer for 10000 ms and store its handle in
`this._ringTimeout` (app.js lines 172-175 and 196-199): the previous value
of the field is overwritten without any `clearTimeout`. -/
def armRingTimer (s : SessSt) : SessSt :=
  { s with ringTimers := s.ringTimers ++ [(s.nextId, 10000)]
           _ringTimeout := some s.nextId
           nextId := s.nextId + 1 }

/-- Clear the ring auto-stop timer referenced by `this._ringTimeout`, if
any (app.js lines 177-180 and 206-209). -/
def clearRingTimer (s : SessSt) : SessSt :=
  match s._ringTimeout with
  | some h => { s with ringTimers := clearTimer h s.ringTimers, _ringTimeout := none }
  | none => s

/-- The ring capability listener (lines 169-183): `ringDevice(value)`, then
on true arm the 10 s auto-stop timer, on false clear the stored one; the
hub stores the commanded value after the listener resolves. -/
def ringCapabilityListener (value : Bool) (s : SessSt) : SessSt :=
  let s := if value = true then armRingTimer s else clearRingTimer s
  { s with ring := value }

/-- The `start_ringing` flow run listener (lines 192-201): ring, set the
capability true, arm the auto-stop timer (again without clearing a pending
one). -/
def startRingingListener (s : SessSt) : SessSt :=
  let s := { s with ring := true }
  armRingTimer s

/-- The `stop_ringing` flow run listener (lines 203-212): stop ringing,
clear the stored auto-stop timer, set the capability false. -/
def stopRingingListener (s : SessSt) : SessSt :=
  let s := clearRingTimer s
  { s with ring := false }

/-- A pending ring auto-stop timer fires (callback of lines 172-175 /
196-199): it leaves the pending set, rings off and resets the capability;
the `_ringTimeout` field is not cleared by the callback. -/
def ringTimerFire (h : Nat) (s : SessSt) : SessSt :=
  if (s.ringTimers.filter (fun t => t.1 = h)).isEmpty then s
  else { s with ringTimers := clearTimer h s.ringTimers, ring := false }

/-- Method `startRSSIMonitoring` (lines 255-283): starts one 5000 ms interval and
stores its handle. -/
def startRSSIMonitoring (s : SessSt) : SessSt :=
  { s with rssiIntervals := s.rssiIntervals ++ [(s.nextId, 5000)]
           rssiInterval := some s.nextId
           nextId := s.nextId + 1 }

/-- Method `reconnect` (lines 296-302) in the handle-carrying model: one fresh
7000 ms timer, handle stored, previous timer not cleared. -/
def reconnectSched (s : SessSt) : SessSt :=
  { s with reconnectTimers := s.reconnectTimers ++ [(s.nextId, 7000)]
           reconnectTimeout := some s.nextId
           nextId := s.nextId + 1 }

/-- Method `onDeleted` (lines 316-340): clears `this.rssiInterval`,
`this.reconnectTimeout` and `this.ringTimeout` when set — the last of these
is the never-assigned field, not `this._ringTimeout` — then, if a
peripheral is held, unregisters it and requests disconnect with errors
caught and logged. -/
def onDeleted (s : SessSt) : SessSt :=
  let s :=
    match s.rssiInterval with
    | some h => { s with rssiIntervals := clearTimer h s.rssiIntervals }
    | none => s
  let s :=
    match s.reconnectTimeout with
    | some h => { s with reconnectTimers := clearTimer h s.reconnectTimers }
    | none => s
  let s :=
    match s.ringTimeout with
    | some h => { s with ringTimers := clearTimer h s.ringTimers }
    | none => s
  s

end TimerModel

/-! ## Pairing candidate list (driver.js lines 19-41)

`onPairListDevices` awaits `this.homey.ble.discover()`, filters the
advertisements by exact local name, and maps each survivor to the pairing
record; a rejection of `discover()` is not caught, so it propagates to the
caller unchanged. -/

namespace DriverModel

structure Advertisement where
  localName : String
  address : String
  manufacturerData : List Nat  -- raw payload bytes, each < 256
deriving DecidableEq, Repr

/-- The record returned per matching tag (driver.js lines 26-36). -/
structure PairDevice where
  name : String
  dataId : String
  storeManufacturerData : String
  storeAddress : String
deriving DecidableEq, Repr

/-- The advertised name the filter matches exactly: `iTAG` followed by
twelve spaces (driver.js line 23). -/
def iTagName : String := "iTAG            "

def hexDigit (n : Nat) : Char :=
  if n < 10 then Char.ofNat (48 + n) else Char.ofNat (87 + n)

/-- One byte as two lowercase hex digits. -/
def byteToHex (b : Nat) : String :=
  String.mk [hexDigit (b % 256 / 16), hexDigit (b % 16)]

/-- Node's `Buffer.prototype.toString('hex')`. -/
def bufToHex (bs : List Nat) : String :=
  String.join (bs.map byteToHex)

/-- driver.js lines 26-36: the mapper applied to each surviving tag. -/
def mkPairDevice (tag : Advertisement) : PairDevice :=
  { name := "iTAG " ++ tag.address
    dataId := tag.address
    storeManufacturerData := bufToHex tag.manufacturerData
    storeAddress := tag.address }

/-- driver.js lines 19-41.  The argument is the outcome of
`this.homey.ble.discover()`; its rejection propagates unchanged. -/
def onPairListDevices (scan : Except String (List Advertisement)) :
    Except String (List PairDevice) :=
  match scan with
  | .error e => .error e
  | .ok advertisements =>
      let tags := advertisements.filter (fun ad => ad.localName == iTagName)
      .ok (tags.map mkPairDevice)

end DriverModel

/-- Registration counters agree with the idempotence flags: each counter is
1 when its flag is set and 0 otherwise. -/
def ConnModel.regsConsistent (s : ConnModel.DeviceState) : Prop :=
  s.ringRegs = (if s.ringListenerRegistered then 1 else 0) ∧
  s.startRegs = (if s.flowActionsRegistered then 1 else 0) ∧
  s.stopRegs = (if s.flowActionsRegistered then 1 else 0)

/-- State after a fresh session's connect attempt fails at `getActionCard`
(lines 187-188), with the disconnect handler already armed (line 145): the
catch block has scheduled one reconnect. -/
def ConnModel.afterLateFailure : ConnModel.DeviceState :=
  (ConnModel.connectToDevice ConnModel.envActionCardFail ConnModel.initDevice).1

/-- State after the link of `afterLateFailure` then physically drops: the
disconnect handler schedules a second reconnect while the first is pending. -/
def ConnModel.afterLateFailureThenDrop : ConnModel.DeviceState :=
  ConnModel.disconnectHandler true ConnModel.afterLateFailure

/-! ## Theorems -/

theorem AlarmModel.inv_step (s : AlarmModel.St) (e : AlarmModel.Ev)
    (he : AlarmModel.capOkEv e = true) : AlarmModel.inv (AlarmModel.step s e) := by
  cases e with
  | connectSuccess => simp [AlarmModel.inv, AlarmModel.step]
  | disconnectEvt capOk =>
      have hc : capOk = true := he
      subst hc
      simp [AlarmModel.inv, AlarmModel.step]

/-- C1: for every sequence of connect-success and disconnect events applied
to one Device Session in which the hub accepts the disconnect handler's
best-effort alarm write (the `.catch`-guarded `setCapabilityValue` of
app.js lines 149-151 — when the hub rejects it the stored value is simply
stale), `alarm_disconnected` is true iff the session's connection phase is
not Connected — `false` exactly while a live link is held. -/
theorem alarm_disconnected_iff_not_connected (s : AlarmModel.St)
    (h : AlarmModel.inv s) (es : List AlarmModel.Ev)
    (hcap : ∀ e ∈ es, AlarmModel.capOkEv e = true) :
    AlarmModel.inv (AlarmModel.run s es) := by
  have main : ∀ fs : List AlarmModel.Ev,
      (∀ e ∈ fs, AlarmModel.capOkEv e = true) →
      ∀ u : AlarmModel.St, AlarmModel.inv u →
      AlarmModel.inv (AlarmModel.run u fs) := by
    intro fs
    induction fs with
    | nil => intro _ u hu; exact hu
    | cons e t ih =>
        intro hc u hu
        have hstep := AlarmModel.inv_step u e (hc e (List.mem_cons_self e t))
        have htail : ∀ e' ∈ t, AlarmModel.capOkEv e' = true :=
          fun e' he' => hc e' (List.mem_cons_of_mem e he')
        simpa [AlarmModel.run, List.foldl] using ih htail _ hstep
  exact main es hcap s h

/-- Witness for C1: a fresh disconnected session with the alarm raised,
driven through a connect and a disconnect whose alarm write the hub
accepts. -/
theorem alarm_disconnected_iff_not_connected_witness :
    AlarmModel.inv ⟨.Disconnected, true⟩ ∧
    (∀ e ∈ [AlarmModel.Ev.connectSuccess, AlarmModel.Ev.disconnectEvt true],
        AlarmModel.capOkEv e = true) ∧
    AlarmModel.inv (AlarmModel.run ⟨.Disconnected, true⟩
      [.connectSuccess, .disconnectEvt true]) :=
  ⟨by decide, by decide,
   alarm_disconnected_iff_not_connected ⟨.Disconnected, true⟩ (by decide) _
     (by decide)⟩

theorem ReconModel.reconnectCount_success_cons (t : List ReconModel.Ev) :
    ReconModel.reconnectCount (.success :: t) = ReconModel.reconnectCount t := by
  cases t with
  | nil => rfl
  | cons b t' => simp [ReconModel.reconnectCount, ReconModel.isSuccess]

theorem ReconModel.reconnectCount_nonsuccess_cons (e : ReconModel.Ev)
    (he : ReconModel.isSuccess e = false) (t : List ReconModel.Ev) :
    ReconModel.reconnectCount (e :: t) =
      (if ReconModel.headSuccess t then 1 else 0) + ReconModel.reconnectCount t := by
  cases t with
  | nil => simp [ReconModel.reconnectCount, ReconModel.headSuccess]
  | cons b t' => simp [ReconModel.reconnectCount, ReconModel.headSuccess, he]

theorem ReconModel.run_fires_eq (es : List ReconModel.Ev) :
    ∀ (w : Bool) (n : Nat),
      (ReconModel.run ⟨w, n⟩ es).fires =
        n + (if w && ReconModel.headSuccess es then 1 else 0) +
          ReconModel.reconnectCount es := by
  induction es with
  | nil =>
      intro w n
      simp [ReconModel.run, ReconModel.reconnectCount, ReconModel.headSuccess]
  | cons e t ih =>
      intro w n
      cases e with
      | success =>
          have h1 : ReconModel.run ⟨w, n⟩ (.success :: t) =
              ReconModel.run ⟨false, n + if w then 1 else 0⟩ t := by
            simp [ReconModel.run, ReconModel.step]
          rw [h1, ih, ReconModel.reconnectCount_success_cons]
          simp [ReconModel.headSuccess, ReconModel.isSuccess]
      | fail =>
          have h1 : ReconModel.run ⟨w, n⟩ (.fail :: t) =
              ReconModel.run ⟨true, n⟩ t := by
            simp [ReconModel.run, ReconModel.step]
          rw [h1, ih,
            ReconModel.reconnectCount_nonsuccess_cons .fail (by rfl) t]
          simp [ReconModel.headSuccess, ReconModel.isSuccess]
          try omega
      | drop =>
          have h1 : ReconModel.run ⟨w, n⟩ (.drop :: t) =
              ReconModel.run ⟨true, n⟩ t := by
            simp [ReconModel.run, ReconModel.step]
          rw [h1, ih,
            ReconModel.reconnectCount_nonsuccess_cons .drop (by rfl) t]
          simp [ReconModel.headSuccess, ReconModel.isSuccess]
          try omega

/-- C2 (amended): over every session history, the `device_reconnected`
trigger fires exactly once per maximal run of disconnect/failure events
immediately followed by a successful connect — including an initial run of
failed attempts before the first-ever successful connect — and
`wasDisconnected` is false immediately after every successful connect
(cleared right after firing). -/
theorem reconnected_once_per_disconnected_run :
    (∀ es : List ReconModel.Ev,
        (ReconModel.run ReconModel.init es).fires = ReconModel.reconnectCount es) ∧
    (∀ es : List ReconModel.Ev,
        (ReconModel.run ReconModel.init (es ++ [.success])).wasDisconnected = false) := by
  constructor
  · intro es
    have h := ReconModel.run_fires_eq es false 0
    simpa [ReconModel.init] using h
  · intro es
    show (List.foldl ReconModel.step ReconModel.init (es ++ [.success])).wasDisconnected = false
    rw [List.foldl_append]
    rfl

/-- C2 counterexample: in the trace [failed attempt, successful connect]
the `device_reconnected` trigger fires once (the catch block set
`wasDisconnected` at line 228), although this success is the session's
first-ever connect — the trace contains exactly one success event.  The
claim as stated ("never on the first-ever connect of a session") is
therefore false. -/
theorem reconnected_fires_on_first_ever_connect :
    (ReconModel.run ReconModel.init
      [ReconModel.Ev.fail, ReconModel.Ev.success]).fires = 1 ∧
    [ReconModel.Ev.fail, ReconModel.Ev.success].countP
      (fun e => ReconModel.isSuccess e) = 1 := by decide

theorem ConnModel.tstep_ok (u : ConnModel.DeviceState)
    (f : ConnModel.DeviceState → ConnModel.DeviceState × Option ConnModel.ConnErr) :
    ConnModel.tstep (u, none) f = f u := rfl

theorem ConnModel.tstep_some (u : ConnModel.DeviceState) (e : ConnModel.ConnErr)
    (f : ConnModel.DeviceState → ConnModel.DeviceState × Option ConnModel.ConnErr) :
    ConnModel.tstep (u, some e) f = (u, some e) := rfl

theorem ConnModel.chain_pres (P : ConnModel.DeviceState → Prop)
    (gs : List (ConnModel.DeviceState → ConnModel.DeviceState × Option ConnModel.ConnErr))
    (hgs : ∀ g ∈ gs, ∀ u, P u → P (g u).1) :
    ∀ s, P s → P (ConnModel.chain gs s).1 := by
  induction gs with
  | nil => intro s hs; exact hs
  | cons g rest ih =>
      intro s hs
      show P (ConnModel.tstep (g s) (ConnModel.chain rest)).1
      rcases hg : g s with ⟨u, oe⟩
      have hu : P u := by
        have := hgs g (List.mem_cons_self g rest) s hs
        rw [hg] at this
        exact this
      cases oe with
      | none =>
          rw [ConnModel.tstep_ok]
          exact ih (fun g' hg' => hgs g' (List.mem_cons_of_mem g hg')) u hu
      | some e =>
          rw [ConnModel.tstep_some]
          exact hu

theorem ConnModel.chain_none_cons
    (g : ConnModel.DeviceState → ConnModel.DeviceState × Option ConnModel.ConnErr)
    (gs : List (ConnModel.DeviceState → ConnModel.DeviceState × Option ConnModel.ConnErr))
    (s : ConnModel.DeviceState)
    (h : (ConnModel.chain (g :: gs) s).2 = none) :
    (g s).2 = none ∧ (ConnModel.chain gs (g s).1).2 = none := by
  rcases hg : g s with ⟨u, oe⟩
  have hc : ConnModel.chain (g :: gs) s = ConnModel.tstep (u, oe) (ConnModel.chain gs) := by
    show ConnModel.tstep (g s) (ConnModel.chain gs) = _
    rw [hg]
  cases oe with
  | none =>
      rw [hc, ConnModel.tstep_ok] at h
      exact ⟨rfl, h⟩
  | some e =>
      rw [hc, ConnModel.tstep_some] at h
      exact absurd h (by simp)

theorem ConnModel.findStep_fst (env : ConnModel.Env) (s : ConnModel.DeviceState) :
    (ConnModel.findStep env s).1 = { s with findCalls := s.findCalls + 1 } := by
  by_cases h : env.findOk <;> simp [ConnModel.findStep, h]

theorem ConnModel.findStep_none (env : ConnModel.Env) (s : ConnModel.DeviceState)
    (h : (ConnModel.findStep env s).2 = none) : env.findOk = true := by
  by_cases hf : env.findOk
  · exact hf
  · simp [ConnModel.findStep, hf] at h

theorem ConnModel.connectStep_none (env : ConnModel.Env) (u : ConnModel.DeviceState)
    (h : (ConnModel.connectStep env u).2 = none) : env.connectOk = true := by
  by_cases hf : env.connectOk
  · exact hf
  · simp [ConnModel.connectStep, hf] at h

theorem ConnModel.clearAlarmStep_none (env : ConnModel.Env) (u : ConnModel.DeviceState)
    (h : (ConnModel.clearAlarmStep env u).2 = none) : env.capConnOk = true := by
  by_cases hf : env.capConnOk
  · exact hf
  · simp [ConnModel.clearAlarmStep, hf] at h

theorem ConnModel.discoverStep_none (env : ConnModel.Env) (u : ConnModel.DeviceState)
    (h : (ConnModel.discoverStep env u).2 = none) : env.discoverOk = true := by
  by_cases hf : env.discoverOk
  · exact hf
  · simp [ConnModel.discoverStep, hf] at h

theorem ConnModel.getServiceStep_none (env : ConnModel.Env) (u : ConnModel.DeviceState)
    (h : (ConnModel.getServiceStep env u).2 = none) : env.ffe0Found = true := by
  by_cases hf : env.ffe0Found
  · exact hf
  · simp [ConnModel.getServiceStep, hf] at h

theorem ConnModel.getCharacteristicsStep_none (env : ConnModel.Env)
    (u : ConnModel.DeviceState)
    (h : (ConnModel.getCharacteristicsStep env u).2 = none) :
    env.alertSvcFound = true ∧ env.linkLostFound = true ∧
    env.buttonFound = true ∧ env.alertFound = true := by
  by_cases h1 : env.alertSvcFound <;> by_cases h2 : env.linkLostFound <;>
    by_cases h3 : env.buttonFound <;> by_cases h4 : env.alertFound <;>
    simp_all [ConnModel.getCharacteristicsStep]

theorem ConnModel.writeLinkLostStep_none (env : ConnModel.Env) (u : ConnModel.DeviceState)
    (h : (ConnModel.writeLinkLostStep env u).2 = none) : env.writeOk = true := by
  by_cases hf : env.writeOk
  · exact hf
  · simp [ConnModel.writeLinkLostStep, hf] at h

theorem ConnModel.actionCardsStep_none (env : ConnModel.Env) (u : ConnModel.DeviceState)
    (h : (ConnModel.actionCardsStep env u).2 = none) : env.actionCardsOk = true := by
  by_cases hf : env.actionCardsOk
  · exact hf
  · simp [ConnModel.actionCardsStep, hf] at h

theorem ConnModel.restSteps_fixed (env : ConnModel.Env) :
    ∀ g ∈ ConnModel.restSteps env, ∀ u : ConnModel.DeviceState,
      (g u).1.pendingReconnects = u.pendingReconnects ∧
      (g u).1.findCalls = u.findCalls := by
  intro g hg u
  simp only [ConnModel.restSteps, List.mem_cons, List.not_mem_nil, or_false] at hg
  rcases hg with rfl | rfl | rfl | rfl | rfl | rfl | rfl | rfl | rfl | rfl | rfl <;>
    simp only [ConnModel.connectStep, ConnModel.clearAlarmStep,
      ConnModel.reconnectedTriggerStep, ConnModel.discoverStep,
      ConnModel.getServiceStep, ConnModel.getCharacteristicsStep,
      ConnModel.writeLinkLostStep, ConnModel.armDisconnectStep,
      ConnModel.ringListenerStep, ConnModel.actionCardsStep,
      ConnModel.flowListenersStep] <;>
    (try split_ifs) <;> simp_all

theorem ConnModel.tryBody_none_of_succeeds (env : ConnModel.Env)
    (s : ConnModel.DeviceState) (h : (ConnModel.tryBody env s).2 = none) :
    ConnModel.attemptSucceeds env = true := by
  unfold ConnModel.tryBody at h
  rcases hf : ConnModel.findStep env s with ⟨u0, oe⟩
  rw [hf] at h
  cases oe with
  | some e => rw [ConnModel.tstep_some] at h; exact absurd h (by simp)
  | none =>
      have hfind : env.findOk = true :=
        ConnModel.findStep_none env s (by rw [hf])
      rw [ConnModel.tstep_ok] at h
      simp only [ConnModel.restSteps] at h
      obtain ⟨e1, h⟩ := ConnModel.chain_none_cons _ _ _ h
      obtain ⟨e2, h⟩ := ConnModel.chain_none_cons _ _ _ h
      obtain ⟨e3, h⟩ := ConnModel.chain_none_cons _ _ _ h
      obtain ⟨e4, h⟩ := ConnModel.chain_none_cons _ _ _ h
      obtain ⟨e5, h⟩ := ConnModel.chain_none_cons _ _ _ h
      obtain ⟨e6, h⟩ := ConnModel.chain_none_cons _ _ _ h
      obtain ⟨e7, h⟩ := ConnModel.chain_none_cons _ _ _ h
      obtain ⟨e8, h⟩ := ConnModel.chain_none_cons _ _ _ h
      obtain ⟨e9, h⟩ := ConnModel.chain_none_cons _ _ _ h
      obtain ⟨e10, h⟩ := ConnModel.chain_none_cons _ _ _ h
      have hconn := ConnModel.connectStep_none env _ e1
      have hcap := ConnModel.clearAlarmStep_none env _ e2
      have hdisc := ConnModel.discoverStep_none env _ e4
      have hsvc := ConnModel.getServiceStep_none env _ e5
      have hchars := ConnModel.getCharacteristicsStep_none env _ e6
      have hwrite := ConnModel.writeLinkLostStep_none env _ e7
      have hact := ConnModel.actionCardsStep_none env _ e10
      simp [ConnModel.attemptSucceeds, hfind, hconn, hcap, hdisc, hsvc,
        hchars.1, hchars.2.1, hchars.2.2.1, hchars.2.2.2, hwrite, hact]

theorem ConnModel.tryBody_counters (env : ConnModel.Env)
    (s : ConnModel.DeviceState) :
    (ConnModel.tryBody env s).1.pendingReconnects = s.pendingReconnects ∧
    (ConnModel.tryBody env s).1.findCalls = s.findCalls + 1 := by
  unfold ConnModel.tryBody
  rcases hf : ConnModel.findStep env s with ⟨u0, oe⟩
  have hu0 : u0.pendingReconnects = s.pendingReconnects ∧
      u0.findCalls = s.findCalls + 1 := by
    have h2 : u0 = { s with findCalls := s.findCalls + 1 } := by
      have := ConnModel.findStep_fst env s
      rw [hf] at this
      exact this
    rw [h2]
    exact ⟨rfl, rfl⟩
  cases oe with
  | some e => rw [ConnModel.tstep_some]; exact hu0
  | none =>
      rw [ConnModel.tstep_ok]
      exact ConnModel.chain_pres
        (fun t => t.pendingReconnects = s.pendingReconnects ∧
          t.findCalls = s.findCalls + 1)
        (ConnModel.restSteps env)
        (fun g hg u hu => by
          have := ConnModel.restSteps_fixed env g hg u
          exact ⟨this.1.trans hu.1, this.2.trans hu.2⟩)
        u0 hu0

theorem ConnModel.catchBlock_spec (env : ConnModel.Env)
    (hc : env.capCatchOk = true) (t : ConnModel.DeviceState) :
    (ConnModel.catchBlock env t).alarm_disconnected = true ∧
    (ConnModel.catchBlock env t).wasDisconnected = true ∧
    (ConnModel.catchBlock env t).pendingReconnects = t.pendingReconnects ++ [7000] ∧
    (ConnModel.catchBlock env t).findCalls = t.findCalls := by
  simp [ConnModel.catchBlock, ConnModel.reconnect, hc]

/-- C3: whenever any collaborator call of a connect attempt fails (device
not found, connect refused, service or characteristic missing, write
refused, capability or action-card lookup failure), the attempt aborts into
the single catch path: the disconnect alarm is written true, the
`wasDisconnected` flag is set, exactly one 7000 ms reconnect is scheduled,
and no second locate/connect attempt happens synchronously (exactly one
`ble.find` call was made). -/
theorem failed_attempt_single_failure_path (env : ConnModel.Env)
    (s : ConnModel.DeviceState)
    (hfail : ConnModel.attemptSucceeds env = false)
    (hcap : env.capCatchOk = true) :
    (ConnModel.connectToDevice env s).1.alarm_disconnected = true ∧
    (ConnModel.connectToDevice env s).1.wasDisconnected = true ∧
    (ConnModel.connectToDevice env s).1.pendingReconnects =
      s.pendingReconnects ++ [7000] ∧
    (ConnModel.connectToDevice env s).1.findCalls = s.findCalls + 1 := by
  rcases htb : ConnModel.tryBody env s with ⟨t, oe⟩
  cases oe with
  | none =>
      exfalso
      have h := ConnModel.tryBody_none_of_succeeds env s (by rw [htb])
      rw [h] at hfail
      exact absurd hfail (by decide)
  | some e =>
      have hcnt := ConnModel.tryBody_counters env s
      rw [htb] at hcnt
      have hcnt1 : t.pendingReconnects = s.pendingReconnects := hcnt.1
      have hcnt2 : t.findCalls = s.findCalls + 1 := hcnt.2
      have hcb := ConnModel.catchBlock_spec env hcap t
      have hct : ConnModel.connectToDevice env s = (ConnModel.catchBlock env t, none) := by
        simp [ConnModel.connectToDevice, htb]
      rw [hct]
      refine ⟨hcb.1, hcb.2.1, ?_, ?_⟩
      · rw [hcb.2.2.1, hcnt1]
      · rw [hcb.2.2.2, hcnt2]

/-- Witness for C3: an attempt in which the proprietary FFE0 service is
absent, run from a fresh device. -/
theorem failed_attempt_single_failure_path_witness :
    ConnModel.attemptSucceeds ConnModel.envServiceMissing = false ∧
    ConnModel.envServiceMissing.capCatchOk = true ∧
    ((ConnModel.connectToDevice ConnModel.envServiceMissing
        ConnModel.initDevice).1.alarm_disconnected = true ∧
     (ConnModel.connectToDevice ConnModel.envServiceMissing
        ConnModel.initDevice).1.wasDisconnected = true ∧
     (ConnModel.connectToDevice ConnModel.envServiceMissing
        ConnModel.initDevice).1.pendingReconnects =
       ConnModel.initDevice.pendingReconnects ++ [7000] ∧
     (ConnModel.connectToDevice ConnModel.envServiceMissing
        ConnModel.initDevice).1.findCalls = ConnModel.initDevice.findCalls + 1) :=
  ⟨by decide, by decide,
   failed_attempt_single_failure_path ConnModel.envServiceMissing
     ConnModel.initDevice (by decide) (by decide)⟩

/-- C4 (amended): every call to `reconnect` schedules exactly one future
connect attempt after the fixed 7000 ms delay, and a fired reconnect timer
performs exactly one connect attempt; but a pending timer is never
cancelled when a new one is scheduled, so consecutive `reconnect` calls
leave several timers outstanding. -/
theorem reconnect_schedules_exactly_one_attempt :
    (∀ s : ConnModel.DeviceState,
        (ConnModel.reconnect s).pendingReconnects = s.pendingReconnects ++ [7000]) ∧
    (∀ (env : ConnModel.Env) (s : ConnModel.DeviceState),
        (ConnModel.connectToDevice env s).1.findCalls = s.findCalls + 1) := by
  constructor
  · intro s
    rfl
  · intro env s
    rcases htb : ConnModel.tryBody env s with ⟨t, oe⟩
    have hcnt := ConnModel.tryBody_counters env s
    rw [htb] at hcnt
    have hcnt2 : t.findCalls = s.findCalls + 1 := hcnt.2
    cases oe with
    | none =>
        have : ConnModel.connectToDevice env s = (t, none) := by
          simp [ConnModel.connectToDevice, htb]
        rw [this]
        exact hcnt2
    | some e =>
        have hct : ConnModel.connectToDevice env s = (ConnModel.catchBlock env t, none) := by
          simp [ConnModel.connectToDevice, htb]
        rw [hct]
        show (ConnModel.catchBlock env t).findCalls = s.findCalls + 1
        unfold ConnModel.catchBlock ConnModel.reconnect
        split_ifs <;> simp [hcnt2]

/-- C4 counterexample: from a fresh device, an attempt failing at
`getActionCard` (lines 187-188, after the disconnect handler is armed at
line 145) schedules one reconnect in the catch block; the link then drops
and the disconnect handler schedules another while the first is still
pending — two reconnect timers outstanding at once, refuting "at most one
reconnect timer is outstanding at any instant". -/
theorem reconnect_timers_can_stack :
    ConnModel.afterLateFailure.handlerArmed = true ∧
    ConnModel.afterLateFailure.pendingReconnects.length = 1 ∧
    ConnModel.afterLateFailureThenDrop.pendingReconnects.length = 2 ∧
    ¬ ConnModel.afterLateFailureThenDrop.pendingReconnects.length ≤ 1 := by decide

theorem ConnModel.restSteps_regs (env : ConnModel.Env) :
    ∀ g ∈ ConnModel.restSteps env, ∀ u : ConnModel.DeviceState,
      ConnModel.regsConsistent u → ConnModel.regsConsistent (g u).1 := by
  intro g hg u hu
  simp only [ConnModel.restSteps, List.mem_cons, List.not_mem_nil, or_false] at hg
  rcases hg with rfl | rfl | rfl | rfl | rfl | rfl | rfl | rfl | rfl | rfl | rfl <;>
    simp only [ConnModel.connectStep, ConnModel.clearAlarmStep,
      ConnModel.reconnectedTriggerStep, ConnModel.discoverStep,
      ConnModel.getServiceStep, ConnModel.getCharacteristicsStep,
      ConnModel.writeLinkLostStep, ConnModel.armDisconnectStep,
      ConnModel.ringListenerStep, ConnModel.actionCardsStep,
      ConnModel.flowListenersStep] <;>
    (try split_ifs) <;> simp_all [ConnModel.regsConsistent]

theorem ConnModel.tryBody_regs (env : ConnModel.Env) (s : ConnModel.DeviceState)
    (hs : ConnModel.regsConsistent s) :
    ConnModel.regsConsistent (ConnModel.tryBody env s).1 := by
  unfold ConnModel.tryBody
  rcases hf : ConnModel.findStep env s with ⟨u0, oe⟩
  have hu0 : ConnModel.regsConsistent u0 := by
    have h2 : u0 = { s with findCalls := s.findCalls + 1 } := by
      have := ConnModel.findStep_fst env s
      rw [hf] at this
      exact this
    rw [h2]
    exact hs
  cases oe with
  | some e => rw [ConnModel.tstep_some]; exact hu0
  | none =>
      rw [ConnModel.tstep_ok]
      exact ConnModel.chain_pres ConnModel.regsConsistent (ConnModel.restSteps env)
        (ConnModel.restSteps_regs env) u0 hu0

theorem ConnModel.catchBlock_regs (env : ConnModel.Env) (t : ConnModel.DeviceState)
    (ht : ConnModel.regsConsistent t) :
    ConnModel.regsConsistent (ConnModel.catchBlock env t) := by
  unfold ConnModel.catchBlock ConnModel.reconnect
  split_ifs <;> simp_all [ConnModel.regsConsistent]

theorem ConnModel.sessStep_regs (s : ConnModel.DeviceState) (e : ConnModel.SessEv)
    (hs : ConnModel.regsConsistent s) :
    ConnModel.regsConsistent (ConnModel.sessStep s e) := by
  cases e with
  | attempt env =>
      show ConnModel.regsConsistent (ConnModel.connectToDevice env s).1
      rcases htb : ConnModel.tryBody env s with ⟨t, oe⟩
      have ht : ConnModel.regsConsistent t := by
        have := ConnModel.tryBody_regs env s hs
        rw [htb] at this
        exact this
      cases oe with
      | none =>
          have hc : ConnModel.connectToDevice env s = (t, none) := by
            simp [ConnModel.connectToDevice, htb]
          rw [hc]
          exact ht
      | some e =>
          have hc : ConnModel.connectToDevice env s = (ConnModel.catchBlock env t, none) := by
            simp [ConnModel.connectToDevice, htb]
          rw [hc]
          exact ConnModel.catchBlock_regs env t ht
  | drop capOk =>
      show ConnModel.regsConsistent (ConnModel.disconnectHandler capOk s)
      unfold ConnModel.disconnectHandler ConnModel.reconnect
      split_ifs <;> simp_all [ConnModel.regsConsistent]

theorem ConnModel.sessRun_regs (es : List ConnModel.SessEv) :
    ConnModel.regsConsistent (ConnModel.sessRun ConnModel.initDevice es) := by
  have h : ∀ s, ConnModel.regsConsistent s →
      ConnModel.regsConsistent (ConnModel.sessRun s es) := by
    induction es with
    | nil => intro s hs; exact hs
    | cons e t ih =>
        intro s hs
        have h1 : ConnModel.sessRun s (e :: t) =
            ConnModel.sessRun (ConnModel.sessStep s e) t := rfl
        rw [h1]
        exact ih _ (ConnModel.sessStep_regs s e hs)
  exact h ConnModel.initDevice (by simp [ConnModel.initDevice, ConnModel.regsConsistent])

/-- C7: over every session history of connect attempts (under arbitrary
collaborator behaviour) and link drops, starting from a fresh device, the
ring capability listener and the two flow run listeners are each registered
at most once — so each external trigger fires each listener at most the
once-registered callback. -/
theorem listeners_registered_at_most_once (es : List ConnModel.SessEv) :
    (ConnModel.sessRun ConnModel.initDevice es).ringRegs ≤ 1 ∧
    (ConnModel.sessRun ConnModel.initDevice es).startRegs ≤ 1 ∧
    (ConnModel.sessRun ConnModel.initDevice es).stopRegs ≤ 1 := by
  have h := ConnModel.sessRun_regs es
  obtain ⟨h1, h2, h3⟩ := h
  refine ⟨?_, ?_, ?_⟩
  · rw [h1]; split_ifs <;> simp
  · rw [h2]; split_ifs <;> simp
  · rw [h3]; split_ifs <;> simp

/-- C10: the promise returned by `connectToDevice` always resolves: for
every behaviour of the transport and capability collaborators and every
device state, no error escapes the method — the try body funnels every
failure into the catch block, and every fallible call inside the catch
block is itself guarded. -/
theorem connectToDevice_never_rejects (env : ConnModel.Env)
    (s : ConnModel.DeviceState) :
    (ConnModel.connectToDevice env s).2 = none := by
  rcases htb : ConnModel.tryBody env s with ⟨t, oe⟩
  cases oe <;> simp [ConnModel.connectToDevice, htb]

/-- C5 (amended): arming the ring auto-stop path creates exactly one fresh
10000 ms timer and overwrites `this._ringTimeout` with its handle without
cancelling a previously pending timer; every stop path (manual actuator
false, stop-ringing action) cancels the timer referenced by the stored
handle and clears the field. -/
theorem ring_stop_paths_cancel_stored_timer :
    (∀ s : TimerModel.SessSt,
        (TimerModel.armRingTimer s).ringTimers = s.ringTimers ++ [(s.nextId, 10000)] ∧
        (TimerModel.armRingTimer s)._ringTimeout = some s.nextId) ∧
    (∀ (s : TimerModel.SessSt) (k : Nat), s._ringTimeout = some k →
        (TimerModel.stopRingingListener s).ringTimers =
          TimerModel.clearTimer k s.ringTimers ∧
        (TimerModel.stopRingingListener s)._ringTimeout = none) ∧
    (∀ (s : TimerModel.SessSt) (k : Nat), s._ringTimeout = some k →
        (TimerModel.ringCapabilityListener false s).ringTimers =
          TimerModel.clearTimer k s.ringTimers ∧
        (TimerModel.ringCapabilityListener false s)._ringTimeout = none) := by
  refine ⟨?_, ?_, ?_⟩
  · intro s
    exact ⟨rfl, rfl⟩
  · intro s k hk
    simp [TimerModel.stopRingingListener, TimerModel.clearRingTimer, hk]
  · intro s k hk
    simp [TimerModel.ringCapabilityListener, TimerModel.clearRingTimer, hk]

/-- Witness for C5 (amended): a session with one armed auto-stop timer
(handle 0), stopped through the stop-ringing action. -/
theorem ring_stop_paths_cancel_stored_timer_witness :
    (TimerModel.stopRingingListener
        (TimerModel.armRingTimer TimerModel.initSess)).ringTimers =
      TimerModel.clearTimer 0
        (TimerModel.armRingTimer TimerModel.initSess).ringTimers ∧
    (TimerModel.stopRingingListener
        (TimerModel.armRingTimer TimerModel.initSess))._ringTimeout = none :=
  ring_stop_paths_cancel_stored_timer.2.1
    (TimerModel.armRingTimer TimerModel.initSess) 0 (by decide)

/-- C5 counterexample: two consecutive start-ringing flow actions (both
reachable: the run listener has no guard) leave two ring auto-stop timers
pending at once, refuting "arming a new 10-time-unit auto-stop timer
cancels any previously pending one" and "at most one ring-stop timer is
pending at any instant". -/
theorem ring_autostop_timers_can_stack :
    ((TimerModel.startRingingListener
        (TimerModel.startRingingListener TimerModel.initSess)).ringTimers).length = 2 ∧
    ¬ ((TimerModel.startRingingListener
        (TimerModel.startRingingListener TimerModel.initSess)).ringTimers).length ≤ 1 := by
  decide

/-- C6 (code bug): a session holding one pending ring auto-stop timer
(armed by `start_ringing`, handle 0, stored in `this._ringTimeout`) goes
through `onDeleted`; the teardown checks `this.ringTimeout` (line 328) — a
field assigned nowhere in app.js, hence still unset — so the pending
auto-stop timer survives teardown instead of being cancelled. -/
theorem teardown_leaves_ring_timer_pending :
    (TimerModel.startRingingListener TimerModel.initSess)._ringTimeout = some 0 ∧
    (TimerModel.startRingingListener TimerModel.initSess).ringTimeout = none ∧
    (TimerModel.onDeleted
        (TimerModel.startRingingListener TimerModel.initSess)).ringTimers =
      [(0, 10000)] := by
  decide

/-- C8: `ringDevice` writes the fixed one-byte start code 0x02 when active
and the stop code 0x00 when not; when the alert-characteristic handle is
missing or the write rejects, the failure is caught and logged, nothing is
written, the method still returns normally (it is a total function into
`RingOutcome`), and the device state is untouched. -/
theorem ringDevice_writes_and_never_throws (value : Bool)
    (env : RingModel.RingEnv) (s : ConnModel.DeviceState) :
    (RingModel.ringDeviceOn value env s).1 = s ∧
    (RingModel.ringDevice value env).bytesWritten =
      (if env.alertCharPresent && env.writeOk then [if value then 2 else 0] else []) ∧
    (RingModel.ringDevice value env).errorLogged =
      !(env.alertCharPresent && env.writeOk) := by
  refine ⟨rfl, ?_, ?_⟩ <;>
    rcases env with ⟨a, w⟩ <;> cases a <;> cases w <;> cases value <;>
      simp [RingModel.ringDevice, RingModel.writeAlert]

/-- C9: `onPairListDevices` keeps exactly the advertisements whose local
name equals the iTAG product name, maps each to a candidate carrying its
address and hex-encoded manufacturer payload, yields zero candidates when
nothing matches, and propagates a transport failure unchanged. -/
theorem pair_candidates_filter_spec :
    (∀ (advs : List DriverModel.Advertisement) (ds : List DriverModel.PairDevice),
        DriverModel.onPairListDevices (Except.ok advs) = Except.ok ds →
        ∀ d, d ∈ ds ↔ ∃ ad ∈ advs, ad.localName = DriverModel.iTagName ∧
          d = DriverModel.mkPairDevice ad) ∧
    (∀ advs : List DriverModel.Advertisement,
        (∀ ad ∈ advs, ad.localName ≠ DriverModel.iTagName) →
        DriverModel.onPairListDevices (Except.ok advs) = Except.ok []) ∧
    (∀ e : String,
        DriverModel.onPairListDevices (Except.error e) = Except.error e) := by
  refine ⟨?_, ?_, ?_⟩
  · intro advs ds hds d
    have hrfl : DriverModel.onPairListDevices (Except.ok advs) =
        Except.ok ((advs.filter
          (fun ad => ad.localName == DriverModel.iTagName)).map
            DriverModel.mkPairDevice) := rfl
    rw [hrfl] at hds
    injection hds with hds
    rw [← hds]
    simp only [List.mem_map, List.mem_filter, beq_iff_eq]
    tauto
  · intro advs h
    have hnil : advs.filter (fun ad => ad.localName == DriverModel.iTagName) = [] := by
      rw [List.filter_eq_nil_iff]
      intro a ha
      simpa using h a ha
    simp [DriverModel.onPairListDevices, hnil]
  · intro e
    rfl

/-- Witness for C9: a scan with one non-matching advertisement yields no
candidates; a rejected scan propagates its error. -/
theorem pair_candidates_filter_spec_witness :
    DriverModel.onPairListDevices
      (Except.ok [(⟨"nope", "11:22:33:44:55:66", [1, 171]⟩ :
        DriverModel.Advertisement)]) = Except.ok [] ∧
    DriverModel.onPairListDevices (Except.error "scan failed") =
      Except.error "scan failed" :=
  ⟨pair_candidates_filter_spec.2.1
      [⟨"nope", "11:22:33:44:55:66", [1, 171]⟩] (by decide),
   pair_candidates_filter_spec.2.2 "scan failed"⟩
